import Mathlib

/-!
Verification of the `publish_badge` Netlify function
(`netlify/functions/publish_badge/publish_badge.mts`).

Strings are modelled as `List Char` (unicode scalar values). JavaScript
notions used by the source are made explicit:

* `isJsWhitespace` is the character set matched by the JS regex class
  `\s` (which is also the set removed by `String.prototype.trim`).
* `isWordCharJs` is the JS regex class `\w`, i.e. `[A-Za-z0-9_]`.
* JS truthiness of a nullable string (`null`/`undefined` and `""` are
  falsy) is `truthyO` on `Option (List Char)`.
* `String.prototype.toLowerCase` is modelled by `Char.toLower`
  (case mapping outside basic latin letters is not modelled).

The handler's network effects are modelled by an oracle (`Upstream`)
giving the responses of the Badgr token and assertion endpoints, and the
outcome records which upstream calls were started.  Body parsing by
`URLSearchParams` is abstracted: a request carries, next to its raw body,
the four form fields as returned by `params.get` (`none` when absent).
Network-level exceptions of `fetch` itself are not modelled; a call either
yields a response object or is never reached.
-/

namespace PublishBadge

/-- Strings as lists of unicode scalar values. -/
abbrev Str := List Char

/-- The JS whitespace class `\s`, also the set removed by `trim()`:
tab, LF, VT, FF, CR, space, NBSP, ogham space, the U+2000..U+200A range,
LS, PS, narrow NBSP, MMSP, ideographic space and BOM. -/
def isJsWhitespace (c : Char) : Bool :=
  c.toNat == 9 || c.toNat == 10 || c.toNat == 11 || c.toNat == 12 ||
  c.toNat == 13 || c.toNat == 32 || c.toNat == 160 || c.toNat == 0x1680 ||
  (0x2000 ≤ c.toNat && c.toNat ≤ 0x200A) ||
  c.toNat == 0x2028 || c.toNat == 0x2029 || c.toNat == 0x202F ||
  c.toNat == 0x205F || c.toNat == 0x3000 || c.toNat == 0xFEFF

/-- The JS regex class `\w`, i.e. `[A-Za-z0-9_]` (95 is the underscore). -/
def isWordCharJs (c : Char) : Bool :=
  c.isUpper || c.isLower || c.isDigit || c.toNat == 95

/-- `String.prototype.trim`: drop leading and trailing JS whitespace. -/
def jsTrim (s : Str) : Str :=
  List.rdropWhile isJsWhitespace (List.dropWhile isJsWhitespace s)

/-- The characters kept by the regex replace `/[^\w\s'-]/g` → `""`
in `sanitizeString` (39 is the apostrophe, 45 the hyphen). -/
def sanitizeKeep (c : Char) : Bool :=
  isWordCharJs c || isJsWhitespace c || c.toNat == 39 || c.toNat == 45

/-- Source `sanitizeString`: `s.trim().replace(/[^\w\s'-]/g, "")`. -/
def sanitizeString (s : Str) : Str :=
  (jsTrim s).filter sanitizeKeep

/-- Source `sanitizeEmail`: `email.trim().toLowerCase()`. -/
def sanitizeEmail (s : Str) : Str :=
  (jsTrim s).map Char.toLower

/-- Source `sanitizeFullName`: `sanitizeString` then `substring(0, 100)`. -/
def sanitizeFullName (s : Str) : Str :=
  (sanitizeString s).take 100

/-- All characters differ from `'@'` (the regex class `[^@]`). -/
def noAt (s : Str) : Bool := s.all (fun c => c != '@')

/-- Matcher for the regex fragment `[^@]*\.[^@]+` (reading the leading
`[^@]*` one character at a time; a `'.'` may either be the required dot,
provided at least one non-`'@'` character follows, or be consumed by the
leading `[^@]*`). -/
def midOk : Str → Bool
  | [] => false
  | c :: rest => (c == '.' && !rest.isEmpty && noAt rest) ||
      (c != '@' && midOk rest)

/-- Matcher for the regex fragment `[^@]+\.[^@]+` (the part after the
`'@'` in the source email regex): one non-`'@'` character, then
`[^@]*\.[^@]+`. -/
def domainOk : Str → Bool
  | [] => false
  | c :: rest => c != '@' && midOk rest

/-- Matcher for `[^@]*@[^@]+\.[^@]+$`: the email regex after its first
character has been consumed. -/
def emailTail : Str → Bool
  | [] => false
  | c :: rest => (c == '@' && domainOk rest) || (c != '@' && emailTail rest)

/-- Source `isValidEmail`: the test of `/^[^@]+@[^@]+\.[^@]+$/`,
unfolded into a recursive matcher: one non-`'@'` character, then
`[^@]*@[^@]+\.[^@]+$`. -/
def isValidEmail : Str → Bool
  | [] => false
  | c :: rest => c != '@' && emailTail rest

/-- Source `badgeClassToCourseId` (badge class id → Canvas course id). -/
def badgeClassToCourseId : List (Str × Str) :=
  [("g_AMm-vOSC6q4_oB2EMwKw".toList, "11346608".toList),
   ("HNPDHnahQpSJfHMkRFQY4g".toList, "11346612".toList),
   ("o1tF48xdR0CKvJKgsHi2cw".toList, "1346616".toList),
   ("c87tAYNdSVWTlWijeG-HOg".toList, "11346595".toList),
   ("I1Hjg23QT-KoWGAMwh99QA".toList, "11229309".toList),
   ("Ke0RMbahQVePBuxbjaAUwA".toList, "11176634".toList),
   ("q4zbMxLMRUetYmFLp023KA".toList, "11275476".toList),
   ("2DowutSbQaaBEKSxg2VNUQ".toList, "11276029".toList)]

/-- Source `badgeClassToAccessCode` (badge class id → expected code). -/
def badgeClassToAccessCode : List (Str × Str) :=
  [("g_AMm-vOSC6q4_oB2EMwKw".toList, "PYSJ_415_GH".toList),
   ("HNPDHnahQpSJfHMkRFQY4g".toList, "LE_628_BG".toList),
   ("o1tF48xdR0CKvJKgsHi2cw".toList, "BCLS_650_R6".toList),
   ("c87tAYNdSVWTlWijeG-HOg".toList, "SRY_535_3K".toList),
   ("I1Hjg23QT-KoWGAMwh99QA".toList, "SEPE_6134_OG".toList),
   ("Ke0RMbahQVePBuxbjaAUwA".toList, "BYRC_523_RA".toList),
   ("q4zbMxLMRUetYmFLp023KA".toList, "CPECS_061_S9".toList),
   ("2DowutSbQaaBEKSxg2VNUQ".toList, "TSP_BR5_15".toList)]

/-- JS truthiness of a nullable string: `null`/`undefined` and the empty
string are falsy. -/
def truthyO : Option Str → Bool
  | none => false
  | some s => !s.isEmpty

/-- The four form fields of a submission, as returned by
`URLSearchParams.get` on the request body (`none` when absent). -/
structure Form where
  email : Option Str
  badge_class_id : Option Str
  access_code : Option Str
  full_name : Option Str

/-- An inbound request: the `Origin` and `Referer` header values (`none`
when the header is absent), the HTTP method, the body text (`[]` when the
body is empty or absent) and the parsed form fields of the body. -/
structure Req where
  origin : Option Str
  referer : Option Str
  method : Str
  body : Str
  form : Form

/-- The environment configuration the handler reads:
`process.env.BADGR_PASSWORD` (`none` when unset).  The Postmark token,
Google credentials and sheet id only influence the best-effort stage 4
tasks, whose failures the handler swallows, so they are absorbed into the
`Upstream` success flags. -/
structure Env where
  badgrPassword : Option Str

/-- Response of the Badgr token endpoint: `ok`/`status`/body text of the
HTTP response, and the `access_token` field of its JSON body (`none` when
the field is absent). -/
structure TokenResp where
  ok : Bool
  status : Nat
  text : Str
  access_token : Option Str

/-- One element of the assertion response's `result` array: its
`openBadgeId` field (`none` when absent). -/
structure BadgeEntry where
  openBadgeId : Option Str

/-- Response of the Badgr assertion endpoint: `ok`/`status`/body text,
and the `result` field of its JSON body (`none` when the field is absent
or not an array). -/
structure BadgeResp where
  ok : Bool
  status : Nat
  text : Str
  result : Option (List BadgeEntry)

/-- Oracle for the upstream services: the responses the two Badgr calls
would receive, and whether the Postmark email call and the Google Sheets
append would succeed (the handler ignores these two outcomes). -/
structure Upstream where
  tokenResp : TokenResp
  badgeResp : BadgeResp
  emailOk : Bool
  sheetOk : Bool

/-- The observable outcome of one invocation: the HTTP response (status
and plain-text body) and which upstream calls were started. -/
structure Outcome where
  status : Nat
  body : Str
  tokenCalled : Bool
  badgeCalled : Bool
  emailCalled : Bool
  sheetCalled : Bool
deriving DecidableEq

/-- The trusted origin literal of step 0 of the handler. -/
def trustedOrigin : Str := "https://publishbadge.netlify.app".toList

/-- The method literal `"POST"`. -/
def postMethod : Str := "POST".toList

/-- Evaluation of `request.headers.get("origin") ||
request.headers.get("referer")`: the origin header if truthy, otherwise
the referer header. -/
def effectiveOrigin (req : Req) : Option Str :=
  match req.origin with
  | some s => if s.isEmpty then req.referer else some s
  | none => req.referer

/-- Step 0 gate: `originHeader` is truthy and starts with the trusted
origin (the source rejects when `!originHeader ||
!originHeader.startsWith("https://publishbadge.netlify.app")`). -/
def checkOrigin (req : Req) : Bool :=
  match effectiveOrigin req with
  | none => false
  | some s => !s.isEmpty && trustedOrigin.isPrefixOf s

/-- The conditional sanitization `if (field) field = sanitize(field)`:
the sanitizer is only applied to a truthy value (a `null` or empty field
is left as is). -/
def jsSanApp (f : Str → Str) (o : Option Str) : Option Str :=
  match o with
  | none => none
  | some s => if s.isEmpty then some s else some (f s)

/-- The sanitization block of the handler: `sanitizeEmail` on `email`,
`trim()` on `badge_class_id`, `sanitizeString` on `access_code`,
`sanitizeFullName` on `full_name`. -/
def sanitizeForm (f : Form) : Form where
  email := jsSanApp sanitizeEmail f.email
  badge_class_id := jsSanApp jsTrim f.badge_class_id
  access_code := jsSanApp sanitizeString f.access_code
  full_name := jsSanApp sanitizeFullName f.full_name

/-- The missing-required-fields check `!studentEmail || !badgeClassId ||
!accessCode || !fullName`, phrased positively: all four sanitized fields
are truthy. -/
def fieldsPresent (f : Form) : Bool :=
  truthyO f.email && truthyO f.badge_class_id &&
  truthyO f.access_code && truthyO f.full_name

/-- An outcome with no upstream call started (every rejection before
stage 3 has this shape). -/
def rejectOutcome (status : Nat) (body : Str) : Outcome :=
  ⟨status, body, false, false, false, false⟩

/-- Body of the 500 response of the token `catch` branch, for a token
response with `ok` false: `Error obtaining access token: HTTP status
{status} - {text}`. -/
def tokenHttpErrBody (tr : TokenResp) : Str :=
  "Error obtaining access token: HTTP status ".toList ++
  (Nat.repr tr.status).toList ++ " - ".toList ++ tr.text

/-- Body of the 500 response of the badge `catch` branch, for a badge
response with `ok` false. -/
def badgeHttpErrBody (br : BadgeResp) : Str :=
  "Error creating badge: HTTP status ".toList ++
  (Nat.repr br.status).toList ++ " - ".toList ++ br.text

/-- Body of the 500 response when the assertion response has no usable
`result` array. -/
def badgeFormatErrBody : Str :=
  "Error creating badge: Unexpected badge response format".toList

/-- Body of the 500 response when the first result lacks a truthy
`openBadgeId`. -/
def badgeUrlErrBody : Str :=
  "Error creating badge: Badge URL not found in response".toList

/-- The fixed 200 acknowledgment body. -/
def ackBody : Str :=
  ("Submission received. Please watch your email for notification of " ++
   "your badge creation.").toList

/-- The body of the 500 internal-configuration-error response. -/
def configErrBody : Str := "Internal configuration error".toList

/-- Steps 1-4 of the handler: credentials check, token acquisition,
assertion creation, then the best-effort email and sheet calls.  The
e-mail/sheet try/catch blocks of the source swallow failures, so both
calls are started and the fixed acknowledgment is returned whatever
`up.emailOk` and `up.sheetOk` are. -/
def issueBadge (env : Env) (up : Upstream) : Outcome :=
  if truthyO env.badgrPassword then
    let tr := up.tokenResp
    if tr.ok then
      if truthyO tr.access_token then
        let br := up.badgeResp
        if br.ok then
          match br.result with
          | none => ⟨500, badgeFormatErrBody, true, true, false, false⟩
          | some [] => ⟨500, badgeFormatErrBody, true, true, false, false⟩
          | some (entry :: _) =>
            if truthyO entry.openBadgeId then
              ⟨200, ackBody, true, true, true, true⟩
            else ⟨500, badgeUrlErrBody, true, true, false, false⟩
        else ⟨500, badgeHttpErrBody br, true, true, false, false⟩
      else ⟨500, "Failed to retrieve access token from Badgr.".toList,
              true, false, false, false⟩
    else ⟨500, tokenHttpErrBody tr, true, false, false, false⟩
  else rejectOutcome 500 "Badgr credentials not configured.".toList

/-- The value a JS bracket access `obj[k]` on a registry object literal
can produce: an own entry (a string value), an inherited
`Object.prototype` property (a function or object — always truthy and
never strictly equal to a string), or `undefined`. -/
inductive JsProp where
  | str (s : Str)
  | proto
  | undef
deriving DecidableEq

/-- The property names a plain object literal inherits from
`Object.prototype` and that bracket access can therefore reach. -/
def objectPrototypeKeys : List Str :=
  ["constructor".toList, "hasOwnProperty".toList, "isPrototypeOf".toList,
   "propertyIsEnumerable".toList, "toLocaleString".toList,
   "toString".toList, "valueOf".toList, "__proto__".toList,
   "__defineGetter__".toList, "__defineSetter__".toList,
   "__lookupGetter__".toList, "__lookupSetter__".toList]

/-- JS bracket access `obj[k]` on a registry object literal: an own
entry shadows the prototype; otherwise the lookup walks up to
`Object.prototype`. -/
def jsObjGet (own : List (Str × Str)) (k : Str) : JsProp :=
  match List.lookup k own with
  | some v => JsProp.str v
  | none => if k ∈ objectPrototypeKeys then JsProp.proto else JsProp.undef

/-- JS truthiness of a property-access result: a string is truthy when
non-empty; inherited functions and objects are truthy; `undefined` is
falsy. -/
def jsTruthyProp : JsProp → Bool
  | JsProp.str s => !s.isEmpty
  | JsProp.proto => true
  | JsProp.undef => false

/-- JS strict equality `a === p` between a string `a` and a
property-access result: true only against an own string entry with the
same characters (a function, object or `undefined` is never strictly
equal to a string). -/
def jsStrictEqStr (a : Str) : JsProp → Bool
  | JsProp.str s => a == s
  | JsProp.proto => false
  | JsProp.undef => false

/-- The field-validation part of the handler, applied to the parsed form
(missing fields, email shape, the two registry lookups — JS bracket
accesses, including the prototype chain — and the access code
comparison), continuing into `issueBadge`. -/
def handleForm (form : Form) (env : Env) (up : Upstream) : Outcome :=
  let f := sanitizeForm form
  if fieldsPresent f then
    let e := f.email.getD []
    let b := f.badge_class_id.getD []
    let a := f.access_code.getD []
    if isValidEmail e then
      let expectedCourseId := jsObjGet badgeClassToCourseId b
      if jsTruthyProp expectedCourseId then
        let expectedAccessCode := jsObjGet badgeClassToAccessCode b
        if jsTruthyProp expectedAccessCode then
          if jsStrictEqStr a expectedAccessCode then issueBadge env up
          else rejectOutcome 403 "Invalid access code.".toList
        else rejectOutcome 500 configErrBody
      else rejectOutcome 400 "Invalid badge_class_id.".toList
    else rejectOutcome 400 "Invalid email format.".toList
  else rejectOutcome 400 "Missing required form data.".toList

/-- The exported request handler: origin gate, method gate, body gate,
then field validation and the upstream pipeline. -/
def handler (req : Req) (env : Env) (up : Upstream) : Outcome :=
  if checkOrigin req then
    if req.method == postMethod then
      if req.body.isEmpty then
        rejectOutcome 400 "Missing request body".toList
      else handleForm req.form env up
    else rejectOutcome 405 "Method Not Allowed".toList
  else rejectOutcome 403 "Forbidden".toList

/-- The full validation pipeline of the handler succeeds: the origin
gate, the method and body checks, the missing-fields check, the email
shape check, the course-registry lookup and the access-code comparison
(everything before the Badgr credential check and stage 3). -/
def validationPasses (req : Req) : Bool :=
  let f := sanitizeForm req.form
  checkOrigin req && (req.method == postMethod) && !req.body.isEmpty &&
  fieldsPresent f && isValidEmail (f.email.getD []) &&
  truthyO (List.lookup (f.badge_class_id.getD []) badgeClassToCourseId) &&
  (f.access_code.getD [] ==
    (List.lookup (f.badge_class_id.getD []) badgeClassToAccessCode).getD [])

/-- The upstream oracle makes stage 3 fail at some point: the token fetch
returns a non-success response, or the token is absent (or empty) in a
successful token response, or the assertion fetch returns a non-success
response, or the assertion response lacks a non-empty `result` list, or
the first result lacks a truthy `openBadgeId`. -/
def stage3Fails (up : Upstream) : Bool :=
  !up.tokenResp.ok || !truthyO up.tokenResp.access_token ||
  !up.badgeResp.ok ||
  (match up.badgeResp.result with
   | none => true
   | some [] => true
   | some (entry :: _) => !truthyO entry.openBadgeId)

/-- The upstream oracle makes stage 3 succeed: successful token response
carrying a truthy token, successful assertion response with a non-empty
`result` list whose first element carries a truthy `openBadgeId`. -/
def stage3Succeeds (up : Upstream) : Bool :=
  up.tokenResp.ok && truthyO up.tokenResp.access_token &&
  up.badgeResp.ok &&
  (match up.badgeResp.result with
   | some (entry :: _) => truthyO entry.openBadgeId
   | _ => false)

/-- The email shape described by the spec, stated as the spec words it:
one or more non-`'@'` characters, then `'@'`, then one or more non-`'@'`
characters, then `'.'`, then one or more non-`'@'` characters. -/
def emailShapeSpec (s : Str) : Prop :=
  ∃ a b c : Str, s = a ++ '@' :: (b ++ '.' :: c) ∧
    a ≠ [] ∧ b ≠ [] ∧ c ≠ [] ∧
    (∀ x ∈ a, x ≠ '@') ∧ (∀ x ∈ b, x ≠ '@') ∧ (∀ x ∈ c, x ≠ '@')

/-- The character class the spec says sanitization keeps: letter, digit,
whitespace, apostrophe (39), hyphen (45) — stated from the spec words,
for comparison with the class the source regex keeps. -/
def specKeepChar (c : Char) : Bool :=
  c.isAlpha || c.isDigit || isJsWhitespace c || c.toNat == 39 ||
  c.toNat == 45

/-- The spec character class widened with the underscore (95), the
amendment the counterexample for C6 forces. -/
def specKeepCharU (c : Char) : Bool :=
  specKeepChar c || c.toNat == 95

/-- A configured environment (a Badgr password is present). -/
def env0 : Env := ⟨some ("hunter2".toList)⟩

/-- An all-success upstream oracle. -/
def upGood : Upstream :=
  ⟨⟨true, 200, [], some ("tok123".toList)⟩,
   ⟨true, 201, [],
    some [⟨some ("https://api.badgr.io/public/assertions/abc".toList)⟩]⟩,
   true, true⟩

/-- An oracle whose stage 3 succeeds but whose email and sheet calls
both fail. -/
def upFanoutFails : Upstream :=
  { upGood with emailOk := false, sheetOk := false }

/-- An oracle whose token fetch returns a 503 without a token. -/
def upTokenFail : Upstream :=
  { upGood with tokenResp := ⟨false, 503, "busy".toList, none⟩ }

/-- A fully valid submission from the trusted origin. -/
def reqGood : Req :=
  ⟨some ("https://publishbadge.netlify.app/pysj.html".toList), none,
   "POST".toList, "email=a%40b.com".toList,
   ⟨some (" A@B.com ".toList), some ("g_AMm-vOSC6q4_oB2EMwKw".toList),
    some ("PYSJ_415_GH".toList), some ("Jane Doe".toList)⟩⟩

/-- A request with a present-but-empty `Origin` header and a trusted
`Referer` (the counterexample input for C2). -/
def reqEmptyOrigin : Req :=
  { reqGood with origin := some [],
                 referer :=
                   some ("https://publishbadge.netlify.app/le.html".toList) }

/-- A request from an untrusted referer, with no `Origin` header. -/
def reqEvil : Req :=
  { reqGood with origin := none,
                 referer := some ("https://evil.example/form".toList) }

/-- A request without `Origin` and `Referer`, with a non-POST method and
an empty body (the witness input for C10). -/
def reqNoOrigin : Req :=
  { reqGood with origin := none, referer := none,
                 method := "GET".toList, body := [] }

/-- A valid submission except that the access code is wrong. -/
def reqWrongCode : Req :=
  { reqGood with
      form := { reqGood.form with access_code := some ("WRONG".toList) } }

/-- A valid submission except that the badge class id is unknown. -/
def reqUnknownBadge : Req :=
  { reqGood with
      form := { reqGood.form with badge_class_id := some ("nope".toList) } }

/-- A valid submission whose badge class id is the inherited
`Object.prototype` property name `toString` (the second counterexample
input for C8). -/
def reqToString : Req :=
  { reqGood with
      form := { reqGood.form with
                  badge_class_id := some ("toString".toList) } }

/-- A submission with an invalid email AND an unknown badge class id
(the first counterexample input for C8). -/
def reqBadEmailUnknownBadge : Req :=
  { reqGood with
      form := { reqGood.form with email := some ("bad".toList),
                                  badge_class_id := some ("nope".toList) } }

/-- A form whose access code and full name are `". ."`, which sanitizes
to the non-empty but whitespace-only string `" "` (the counterexample
input for C7). -/
def form7 : Form :=
  ⟨some ("a@b.c".toList), some ("id1".toList), some (". .".toList),
   some (". .".toList)⟩


/-! Helper lemmas about the registries and the handler control flow. -/

/-- Every badge class id whose course lookup yields a truthy value also
has a truthy access code in the second registry. -/
lemma course_key_access_truthy (b : Str)
    (h : truthyO (List.lookup b badgeClassToCourseId) = true) :
    truthyO (List.lookup b badgeClassToAccessCode) = true := by
  simp only [badgeClassToCourseId, badgeClassToAccessCode, List.lookup] at h ⊢
  repeat' split at h
  all_goals simp_all [truthyO]

lemma lookup_course_some_truthy (b v : Str)
    (h : List.lookup b badgeClassToCourseId = some v) :
    truthyO (List.lookup b badgeClassToCourseId) = true := by
  simp only [badgeClassToCourseId, List.lookup] at h ⊢
  repeat' split at h
  all_goals cases h
  all_goals simp [truthyO]

/-- Every course-registry key has a non-empty access code in the second
registry (the key-subset form used by claim C5). -/
lemma course_key_has_access_code (b v : Str)
    (h : List.lookup b badgeClassToCourseId = some v) :
    ∃ w, List.lookup b badgeClassToAccessCode = some w ∧ w ≠ [] := by
  have h2 := course_key_access_truthy b (lookup_course_some_truthy b v h)
  cases hl : List.lookup b badgeClassToAccessCode with
  | none => rw [hl] at h2; simp [truthyO] at h2
  | some w =>
    rw [hl] at h2
    simp only [truthyO, Bool.not_eq_true'] at h2
    exact ⟨w, rfl, by simpa using h2⟩

/-- An own registry entry shadows the prototype in a bracket access. -/
lemma jsObjGet_own (own : List (Str × Str)) (k v : Str)
    (h : List.lookup k own = some v) : jsObjGet own k = JsProp.str v := by
  simp [jsObjGet, h]

/-- Every own value of the access-code registry is non-empty. -/
lemma lookup_access_nonempty (b w : Str)
    (h : List.lookup b badgeClassToAccessCode = some w) : w ≠ [] := by
  simp only [badgeClassToAccessCode, List.lookup] at h
  repeat' split at h
  all_goals cases h
  all_goals simp

/-- A truthy own course entry yields an own, non-empty access-code
entry. -/
lemma own_access_entry (b : Str)
    (hc : truthyO (List.lookup b badgeClassToCourseId) = true) :
    ∃ w, List.lookup b badgeClassToAccessCode = some w ∧ w ≠ [] := by
  have h2 := course_key_access_truthy b hc
  cases hl : List.lookup b badgeClassToAccessCode with
  | none => rw [hl] at h2; simp [truthyO] at h2
  | some w =>
    rw [hl] at h2
    simp only [truthyO, Bool.not_eq_true'] at h2
    exact ⟨w, rfl, by simpa using h2⟩

/-- A truthy own course entry makes the bracket access truthy. -/
lemma course_truthy_of_own (b : Str)
    (h : truthyO (List.lookup b badgeClassToCourseId) = true) :
    jsTruthyProp (jsObjGet badgeClassToCourseId b) = true := by
  cases hl : List.lookup b badgeClassToCourseId with
  | none => rw [hl] at h; simp [truthyO] at h
  | some v =>
    rw [hl] at h
    rw [jsObjGet_own _ _ _ hl]
    simpa [jsTruthyProp, truthyO] using h

/-- Whenever the course-id bracket access is truthy — an own entry or an
inherited prototype property — the access-code bracket access is truthy
too, because the two objects have the same own keys and the same
prototype. -/
lemma access_truthy_of_course_truthy (b : Str)
    (h : jsTruthyProp (jsObjGet badgeClassToCourseId b) = true) :
    jsTruthyProp (jsObjGet badgeClassToAccessCode b) = true := by
  cases hl : List.lookup b badgeClassToCourseId with
  | some v =>
    have hT : truthyO (List.lookup b badgeClassToCourseId) = true := by
      rw [hl]
      rw [jsObjGet_own _ _ _ hl] at h
      simpa [truthyO, jsTruthyProp] using h
    obtain ⟨w, hw, hwne⟩ := own_access_entry b hT
    rw [jsObjGet_own _ _ _ hw]
    simpa [jsTruthyProp] using hwne
  | none =>
    simp only [jsObjGet, hl] at h
    by_cases hp : b ∈ objectPrototypeKeys
    · cases ha : List.lookup b badgeClassToAccessCode with
      | some w =>
        rw [jsObjGet_own _ _ _ ha]
        simpa [jsTruthyProp] using lookup_access_nonempty b w ha
      | none => simp [jsObjGet, ha, hp, jsTruthyProp]
    · rw [if_neg hp] at h
      simp [jsTruthyProp] at h

/-- A failed origin gate short-circuits the handler. -/
lemma handler_gate_fail (req : Req) (env : Env) (up : Upstream)
    (h : checkOrigin req = false) :
    handler req env up = rejectOutcome 403 ("Forbidden".toList) := by
  simp [handler, h]

/-- A passed origin gate, a POST method and a non-empty body reduce the
handler to the form-validation stage. -/
lemma handler_to_handleForm (req : Req) (env : Env) (up : Upstream)
    (h0 : checkOrigin req = true) (hm : req.method = postMethod)
    (hb : req.body ≠ []) :
    handler req env up = handleForm req.form env up := by
  simp [handler, h0, hm, List.isEmpty_iff, hb]


lemma tokenHttpErrBody_head (tr : TokenResp) :
    (tokenHttpErrBody tr).head? = some 'E' := rfl

lemma badgeHttpErrBody_head (br : BadgeResp) :
    (badgeHttpErrBody br).head? = some 'E' := rfl

lemma tokenHttpErrBody_ne_config (tr : TokenResp) :
    tokenHttpErrBody tr ≠ configErrBody := by
  intro h
  have h2 := congrArg List.head? h
  rw [tokenHttpErrBody_head tr] at h2
  exact absurd h2 (by decide)

lemma badgeHttpErrBody_ne_config (br : BadgeResp) :
    badgeHttpErrBody br ≠ configErrBody := by
  intro h
  have h2 := congrArg List.head? h
  rw [badgeHttpErrBody_head br] at h2
  exact absurd h2 (by decide)

/-- No branch of stage 3 produces the internal-configuration-error body. -/
lemma issueBadge_body_ne_config (env : Env) (up : Upstream) :
    (issueBadge env up).body ≠ configErrBody := by
  simp only [issueBadge]
  intro h
  repeat' split at h
  all_goals first
    | exact absurd h (by decide)
    | exact tokenHttpErrBody_ne_config _ h
    | exact badgeHttpErrBody_ne_config _ h

/-- No branch of the form-validation stage produces the
internal-configuration-error body: the 500 branch guarded by a missing
access-code registry entry is unreachable by `course_key_access_truthy`. -/
lemma handleForm_body_ne_config (form : Form) (env : Env) (up : Upstream) :
    (handleForm form env up).body ≠ configErrBody := by
  simp only [handleForm]
  intro h
  by_cases h1 : fieldsPresent (sanitizeForm form) = true
  case neg => rw [if_neg h1] at h; exact absurd h (by decide)
  rw [if_pos h1] at h
  by_cases h2 : isValidEmail ((sanitizeForm form).email.getD []) = true
  case neg => rw [if_neg h2] at h; exact absurd h (by decide)
  rw [if_pos h2] at h
  by_cases h3 : jsTruthyProp (jsObjGet badgeClassToCourseId
      ((sanitizeForm form).badge_class_id.getD [])) = true
  case neg => rw [if_neg h3] at h; exact absurd h (by decide)
  rw [if_pos h3] at h
  by_cases h4 : jsTruthyProp (jsObjGet badgeClassToAccessCode
      ((sanitizeForm form).badge_class_id.getD [])) = true
  case neg => exact h4 (access_truthy_of_course_truthy _ h3)
  rw [if_pos h4] at h
  by_cases h5 : jsStrictEqStr ((sanitizeForm form).access_code.getD [])
      (jsObjGet badgeClassToAccessCode
        ((sanitizeForm form).badge_class_id.getD [])) = true
  case neg => rw [if_neg h5] at h; exact absurd h (by decide)
  rw [if_pos h5] at h
  exact issueBadge_body_ne_config env up h

/-- No branch of the handler produces the internal-configuration-error
body. -/
lemma handler_body_ne_config (req : Req) (env : Env) (up : Upstream) :
    (handler req env up).body ≠ configErrBody := by
  simp only [handler]
  intro h
  by_cases h0 : checkOrigin req = true
  case neg => rw [if_neg h0] at h; exact absurd h (by decide)
  rw [if_pos h0] at h
  by_cases hm : (req.method == postMethod) = true
  case neg => rw [if_neg hm] at h; exact absurd h (by decide)
  rw [if_pos hm] at h
  by_cases hb : List.isEmpty req.body = true
  case pos => rw [if_pos hb] at h; exact absurd h (by decide)
  rw [if_neg hb] at h
  exact handleForm_body_ne_config req.form env up h


/-! The claim theorems, with their witnesses and counterexamples. -/

/-- C2 (amended): for every request whose effective origin header —
`Origin` if present and non-empty, otherwise `Referer` — is absent,
empty, or does not start with the trusted origin string, the handler
returns 403 with body `Forbidden` and makes no upstream call of any
kind.  (Amendment forced by `origin_empty_header_counterexample`: a
present-but-empty `Origin` header falls through to `Referer` under JS
truthiness instead of being rejected.) -/
theorem origin_gate_rejects_untrusted (req : Req) (env : Env)
    (up : Upstream) (h : checkOrigin req = false) :
    handler req env up =
      ⟨403, "Forbidden".toList, false, false, false, false⟩ := by
  rw [handler_gate_fail req env up h]; rfl

/-- Witness for C2: a request with only an untrusted referer is rejected
with 403 and no upstream call. -/
theorem origin_gate_rejects_untrusted_witness :
    checkOrigin reqEvil = false ∧
    handler reqEvil env0 upGood =
      ⟨403, "Forbidden".toList, false, false, false, false⟩ :=
  ⟨by decide, origin_gate_rejects_untrusted reqEvil env0 upGood (by decide)⟩

/-- Counterexample for C2 as stated: in `reqEmptyOrigin` the first
present header (`Origin`) is the empty string, which does not start with
the trusted origin, yet the handler does not return 403 (it returns 200
because the trusted `Referer` is used instead). -/
theorem origin_empty_header_counterexample :
    reqEmptyOrigin.origin = some [] ∧
    trustedOrigin.isPrefixOf ([] : Str) = false ∧
    (handler reqEmptyOrigin env0 upGood).status = 200 := by decide

/-- C10: the origin/referer gate is evaluated before the method and body
checks: every request failing the gate gets 403 `Forbidden`, never the
405 or the missing-body 400, whatever its method and body are. -/
theorem origin_checked_before_method_and_body (req : Req) (env : Env)
    (up : Upstream) (h : checkOrigin req = false) :
    (handler req env up).status = 403 ∧
    (handler req env up).body = "Forbidden".toList ∧
    (handler req env up).status ≠ 405 ∧
    (handler req env up).body ≠ "Missing request body".toList := by
  rw [handler_gate_fail req env up h]
  exact ⟨rfl, rfl, by decide, by decide⟩

/-- Witness for C10: a request with no `Origin`/`Referer`, a non-POST
method and an empty body still gets the 403, not the 405 or the 400. -/
theorem origin_checked_before_method_and_body_witness :
    checkOrigin reqNoOrigin = false ∧ reqNoOrigin.method ≠ postMethod ∧
    reqNoOrigin.body = [] ∧
    ((handler reqNoOrigin env0 upGood).status = 403 ∧
     (handler reqNoOrigin env0 upGood).body = "Forbidden".toList ∧
     (handler reqNoOrigin env0 upGood).status ≠ 405 ∧
     (handler reqNoOrigin env0 upGood).body ≠
       "Missing request body".toList) :=
  ⟨by decide, by decide, by decide,
   origin_checked_before_method_and_body reqNoOrigin env0 upGood (by decide)⟩

/-- C8 (amended): for every request that passes the origin, method,
body, missing-fields and email-format checks and whose trimmed
`badge_class_id` is neither a key of the course registry nor an
inherited `Object.prototype` property name (so the JS bracket access
yields `undefined`), the handler returns 400 with body
`Invalid badge_class_id.` and makes no upstream call.  (Amendment
forced by the two prongs of `unknown_badge_class_counterexample`: a
request failing an earlier check gets that earlier check's response,
and an unknown id such as `toString` hits a truthy inherited prototype
property and falls through to the 403 access-code branch.) -/
theorem unknown_badge_class_rejected (req : Req) (env : Env)
    (up : Upstream) (h0 : checkOrigin req = true)
    (hm : req.method = postMethod) (hb : req.body ≠ [])
    (hf : fieldsPresent (sanitizeForm req.form) = true)
    (he : isValidEmail ((sanitizeForm req.form).email.getD []) = true)
    (hc : jsObjGet badgeClassToCourseId
        ((sanitizeForm req.form).badge_class_id.getD []) = JsProp.undef) :
    handler req env up =
      ⟨400, "Invalid badge_class_id.".toList, false, false, false, false⟩ := by
  rw [handler_to_handleForm req env up h0 hm hb]
  simp only [handleForm]
  rw [if_pos hf, if_pos he, if_neg (by simp [hc, jsTruthyProp])]
  rfl

/-- Witness for C8: a request that is valid except for an unknown (and
non-prototype) `badge_class_id` is rejected with the 400 and no
upstream call. -/
theorem unknown_badge_class_rejected_witness :
    (sanitizeForm reqUnknownBadge.form).badge_class_id = some ("nope".toList) ∧
    List.lookup ("nope".toList) badgeClassToCourseId = none ∧
    handler reqUnknownBadge env0 upGood =
      ⟨400, "Invalid badge_class_id.".toList, false, false, false, false⟩ :=
  ⟨by decide, by decide,
   unknown_badge_class_rejected reqUnknownBadge env0 upGood
     (by decide) (by decide) (by decide) (by decide) (by decide) (by decide)⟩

/-- Counterexample for C8 as stated, in two prongs.  First,
`reqBadEmailUnknownBadge` is a submission whose trimmed
`badge_class_id` is not a key of the course registry, yet the handler
returns the email-format 400, not the body `Invalid badge_class_id.`
the claim requires.  Second, `reqToString` submits the non-key
`badge_class_id` value `toString`: the bracket access finds the truthy
inherited `Object.prototype.toString`, so the handler answers 403
`Invalid access code.`, not the claimed 400. -/
theorem unknown_badge_class_counterexample :
    (List.lookup ((sanitizeForm reqBadEmailUnknownBadge.form).badge_class_id.getD [])
       badgeClassToCourseId = none ∧
     (handler reqBadEmailUnknownBadge env0 upGood).body =
       "Invalid email format.".toList ∧
     (handler reqBadEmailUnknownBadge env0 upGood).body ≠
       "Invalid badge_class_id.".toList) ∧
    (List.lookup ((sanitizeForm reqToString.form).badge_class_id.getD [])
       badgeClassToCourseId = none ∧
     (handler reqToString env0 upGood).status = 403 ∧
     (handler reqToString env0 upGood).body =
       "Invalid access code.".toList ∧
     (handler reqToString env0 upGood).status ≠ 400) := by decide

/-- C4: for every request that passes the origin, method, body,
missing-fields, email-format and course-registry checks, if the
sanitized access code differs from the registry's expected code for that
badge class, the handler returns 403 with body `Invalid access code.`
and neither the token call nor the assertion call is started. -/
theorem access_code_mismatch_rejected (req : Req) (env : Env)
    (up : Upstream) (h0 : checkOrigin req = true)
    (hm : req.method = postMethod) (hb : req.body ≠ [])
    (hf : fieldsPresent (sanitizeForm req.form) = true)
    (he : isValidEmail ((sanitizeForm req.form).email.getD []) = true)
    (hc : truthyO (List.lookup ((sanitizeForm req.form).badge_class_id.getD [])
        badgeClassToCourseId) = true)
    (ha : (sanitizeForm req.form).access_code.getD [] ≠
        (List.lookup ((sanitizeForm req.form).badge_class_id.getD [])
          badgeClassToAccessCode).getD []) :
    handler req env up =
      ⟨403, "Invalid access code.".toList, false, false, false, false⟩ := by
  rw [handler_to_handleForm req env up h0 hm hb]
  simp only [handleForm]
  obtain ⟨w, hw, hwne⟩ := own_access_entry _ hc
  rw [if_pos hf, if_pos he, if_pos (course_truthy_of_own _ hc),
      if_pos (by rw [jsObjGet_own _ _ _ hw]; simpa [jsTruthyProp] using hwne),
      if_neg (by
        rw [jsObjGet_own _ _ _ hw]
        simp only [jsStrictEqStr]
        rw [hw] at ha
        simpa using ha)]
  rfl

/-- Witness for C4: a request that is valid except for a wrong access
code is rejected with the 403 and no badge-issuance call. -/
theorem access_code_mismatch_rejected_witness :
    (sanitizeForm reqWrongCode.form).access_code = some ("WRONG".toList) ∧
    handler reqWrongCode env0 upGood =
      ⟨403, "Invalid access code.".toList, false, false, false, false⟩ :=
  ⟨by decide,
   access_code_mismatch_rejected reqWrongCode env0 upGood
     (by decide) (by decide) (by decide) (by decide) (by decide) (by decide)
     (by decide)⟩

/-- C5: every key of the course registry also has a (non-empty) access
code in the access-code registry, and consequently the handler's 500
`Internal configuration error` branch is unreachable: no invocation ever
produces that response body. -/
theorem registries_consistent_config_error_unreachable :
    (∀ b v, List.lookup b badgeClassToCourseId = some v →
       ∃ w, List.lookup b badgeClassToAccessCode = some w ∧ w ≠ []) ∧
    (∀ req env up, (handler req env up).body ≠ configErrBody) :=
  ⟨course_key_has_access_code, handler_body_ne_config⟩

/-- Witness for C5: the first registry key has its access code, and a
concrete invocation does not produce the configuration-error body. -/
theorem registries_consistent_config_error_unreachable_witness :
    (∃ w, List.lookup ("g_AMm-vOSC6q4_oB2EMwKw".toList)
        badgeClassToAccessCode = some w ∧ w ≠ []) ∧
    (handler reqGood env0 upGood).body ≠ configErrBody :=
  ⟨registries_consistent_config_error_unreachable.1 _ ("11346608".toList)
     (by decide),
   registries_consistent_config_error_unreachable.2 reqGood env0 upGood⟩


/-- C1: for every request that passes validation, if stage 3 fails at
any point (non-success token response, missing/empty token in a
successful response, non-success assertion response, missing or empty
`result` list, or missing/empty `openBadgeId` in the first result), the
handler returns a 500 response and neither the email call nor the
spreadsheet call is started. -/
theorem stage3_failure_aborts_without_fanout (req : Req) (env : Env)
    (up : Upstream) (hv : validationPasses req = true)
    (hf : stage3Fails up = true) :
    (handler req env up).status = 500 ∧
    (handler req env up).emailCalled = false ∧
    (handler req env up).sheetCalled = false := by
  simp only [validationPasses, Bool.and_eq_true, and_assoc] at hv
  obtain ⟨h0, hm, hb, hfp, he, hc, ha⟩ := hv
  rw [handler_to_handleForm req env up h0 (by simpa using hm)
    (by simpa using hb)]
  simp only [handleForm]
  obtain ⟨w, hw, hwne⟩ := own_access_entry _ hc
  rw [if_pos hfp, if_pos he, if_pos (course_truthy_of_own _ hc),
      if_pos (by rw [jsObjGet_own _ _ _ hw]; simpa [jsTruthyProp] using hwne),
      if_pos (by
        rw [jsObjGet_own _ _ _ hw]
        simp only [jsStrictEqStr]
        rw [hw] at ha
        simpa using ha)]
  simp only [issueBadge]
  by_cases hp : truthyO env.badgrPassword = true
  case neg => rw [if_neg hp]; exact ⟨rfl, rfl, rfl⟩
  rw [if_pos hp]
  by_cases ht : up.tokenResp.ok = true
  case neg => rw [if_neg ht]; exact ⟨rfl, rfl, rfl⟩
  rw [if_pos ht]
  by_cases htt : truthyO up.tokenResp.access_token = true
  case neg => rw [if_neg htt]; exact ⟨rfl, rfl, rfl⟩
  rw [if_pos htt]
  by_cases hbk : up.badgeResp.ok = true
  case neg => rw [if_neg hbk]; exact ⟨rfl, rfl, rfl⟩
  rw [if_pos hbk]
  simp only [stage3Fails, ht, htt, hbk, Bool.not_true, Bool.false_or,
    Bool.or_eq_true] at hf
  cases hr : up.badgeResp.result with
  | none => exact ⟨rfl, rfl, rfl⟩
  | some l =>
    cases l with
    | nil => exact ⟨rfl, rfl, rfl⟩
    | cons entry tail =>
      rw [hr] at hf
      simp only [Bool.not_eq_true'] at hf
      simp [hf]

/-- Witness for C1: a fully valid request against a failing token
endpoint gets a 500 and neither fan-out call is started. -/
theorem stage3_failure_aborts_without_fanout_witness :
    validationPasses reqGood = true ∧ stage3Fails upTokenFail = true ∧
    ((handler reqGood env0 upTokenFail).status = 500 ∧
     (handler reqGood env0 upTokenFail).emailCalled = false ∧
     (handler reqGood env0 upTokenFail).sheetCalled = false) :=
  ⟨by decide, by decide,
   stage3_failure_aborts_without_fanout reqGood env0 upTokenFail
     (by decide) (by decide)⟩

/-- C3: for every request whose validation passes, with configured Badgr
credentials and a succeeding stage 3, the handler returns 200 with the
fixed acknowledgment body and starts both the email call and the
spreadsheet call — whatever the outcomes `up.emailOk` and `up.sheetOk`
of those two calls are (they are not constrained by any hypothesis), so
a failing email call does not prevent the spreadsheet append, nor the
other way round. -/
theorem stage3_success_acknowledged_despite_fanout (req : Req)
    (env : Env) (up : Upstream) (hv : validationPasses req = true)
    (hp : truthyO env.badgrPassword = true)
    (hs : stage3Succeeds up = true) :
    handler req env up = ⟨200, ackBody, true, true, true, true⟩ := by
  simp only [validationPasses, Bool.and_eq_true, and_assoc] at hv
  obtain ⟨h0, hm, hb, hfp, he, hc, ha⟩ := hv
  rw [handler_to_handleForm req env up h0 (by simpa using hm)
    (by simpa using hb)]
  simp only [handleForm]
  obtain ⟨w, hw, hwne⟩ := own_access_entry _ hc
  rw [if_pos hfp, if_pos he, if_pos (course_truthy_of_own _ hc),
      if_pos (by rw [jsObjGet_own _ _ _ hw]; simpa [jsTruthyProp] using hwne),
      if_pos (by
        rw [jsObjGet_own _ _ _ hw]
        simp only [jsStrictEqStr]
        rw [hw] at ha
        simpa using ha)]
  simp only [issueBadge]
  simp only [stage3Succeeds, Bool.and_eq_true, and_assoc] at hs
  obtain ⟨ht, htt, hbk, hres⟩ := hs
  rw [if_pos hp, if_pos ht, if_pos htt, if_pos hbk]
  cases hr : up.badgeResp.result with
  | none => rw [hr] at hres; exact absurd hres (by decide)
  | some l =>
    cases l with
    | nil => rw [hr] at hres; exact absurd hres (by decide)
    | cons entry tail =>
      rw [hr] at hres
      simp at hres
      simp [hres]

/-- Witness for C3: a fully valid request whose badge creation succeeds
but whose email and sheet calls both fail still gets the 200
acknowledgment, and both fan-out calls were started. -/
theorem stage3_success_acknowledged_despite_fanout_witness :
    validationPasses reqGood = true ∧
    truthyO env0.badgrPassword = true ∧
    stage3Succeeds upFanoutFails = true ∧
    upFanoutFails.emailOk = false ∧ upFanoutFails.sheetOk = false ∧
    handler reqGood env0 upFanoutFails =
      ⟨200, ackBody, true, true, true, true⟩ :=
  ⟨by decide, by decide, by decide, by decide, by decide,
   stage3_success_acknowledged_despite_fanout reqGood env0 upFanoutFails
     (by decide) (by decide) (by decide)⟩


/-! Character-class and sanitization lemmas for C6 and C7. -/

/-- The class the source regex keeps is the spec class plus the
underscore. -/
lemma sanitizeKeep_eq_specKeepCharU (c : Char) :
    sanitizeKeep c = specKeepCharU c := by
  simp only [sanitizeKeep, isWordCharJs, specKeepCharU, specKeepChar,
    Char.isAlpha]
  cases hu : c.isUpper <;> cases hl : c.isLower <;> cases hd : c.isDigit <;>
    cases hw : isJsWhitespace c <;> cases h95 : (c.toNat == 95) <;>
    cases h39 : (c.toNat == 39) <;> cases h45 : (c.toNat == 45) <;> rfl

lemma toNat_ofNat_valid {n : Nat} (h : n.isValidChar) :
    (Char.ofNat n).toNat = n := by
  rw [Char.ofNat, dif_pos h]
  rfl

/-- Lowercasing never turns a non-whitespace character into whitespace:
only basic latin capitals move, and they land on basic latin smalls. -/
lemma isJsWhitespace_toLower (c : Char) (h : isJsWhitespace c = false) :
    isJsWhitespace (Char.toLower c) = false := by
  simp only [Char.toLower]
  split
  case isTrue hcase =>
    have hv : (Char.ofNat (c.toNat + 32)).toNat = c.toNat + 32 :=
      toNat_ofNat_valid (Or.inl (by omega))
    simp only [isJsWhitespace, hv, Bool.or_eq_false_iff,
      beq_eq_false_iff_ne, ne_eq, Bool.and_eq_false_iff,
      decide_eq_false_iff_not, not_le]
    omega
  case isFalse hcase => exact h

/-- A non-empty trim output contains a non-whitespace character (its
last one, by the right-trimming). -/
lemma jsTrim_any_not_ws (s : Str) (h : jsTrim s ≠ []) :
    (jsTrim s).any (fun c => !isJsWhitespace c) = true := by
  have hlast := List.rdropWhile_last_not isJsWhitespace
    (List.dropWhile isJsWhitespace s) h
  rw [List.any_eq_true]
  refine ⟨(jsTrim s).getLast h, List.getLast_mem h, ?_⟩
  simp only [Bool.not_eq_true'] at hlast ⊢
  simpa using hlast

/-- A non-empty sanitized email contains a non-whitespace character. -/
lemma sanitizeEmail_any_not_ws (s : Str) (h : sanitizeEmail s ≠ []) :
    (sanitizeEmail s).any (fun c => !isJsWhitespace c) = true := by
  have h2 : jsTrim s ≠ [] := fun hh => h (by simp [sanitizeEmail, hh])
  have h3 := jsTrim_any_not_ws s h2
  rw [List.any_eq_true] at h3
  obtain ⟨c, hcmem, hcw⟩ := h3
  rw [List.any_eq_true]
  refine ⟨Char.toLower c, List.mem_map_of_mem _ hcmem, ?_⟩
  simp only [Bool.not_eq_true'] at hcw ⊢
  exact isJsWhitespace_toLower c hcw

/-- A truthy conditionally-sanitized field comes from a non-empty raw
value, and its sanitized value is non-empty. -/
lemma truthyO_jsSanApp (g : Str → Str) (o : Option Str)
    (h : truthyO (jsSanApp g o) = true) :
    ∃ s, o = some s ∧ s ≠ [] ∧ jsSanApp g o = some (g s) ∧ g s ≠ [] := by
  cases o with
  | none => simp [jsSanApp, truthyO] at h
  | some s =>
    by_cases hs : s.isEmpty = true
    · simp [jsSanApp, hs, truthyO] at h
    · have hs2 : s ≠ [] := by simpa using hs
      have happ : jsSanApp g (some s) = some (g s) := by
        simp [jsSanApp, hs]
      rw [happ] at h
      simp only [truthyO, Bool.not_eq_eq_eq_not, Bool.not_false] at h
      exact ⟨s, rfl, hs2, happ, by simpa using h⟩


/-- C6 (amended): for every input string, `access_code` normalization
equals trim followed by removing every character outside letters,
digits, whitespace, apostrophe, hyphen, or underscore, and `full_name`
normalization is the same followed by truncation to at most 100
characters.  (Amendment forced by `sanitize_spec_class_counterexample`:
the JS class `\w` used by the source also keeps the underscore, which
the spec's class omits.) -/
theorem sanitize_matches_spec_class_with_underscore (s : Str) :
    sanitizeString s = (jsTrim s).filter specKeepCharU ∧
    sanitizeFullName s = ((jsTrim s).filter specKeepCharU).take 100 := by
  have hfil : (jsTrim s).filter sanitizeKeep = (jsTrim s).filter specKeepCharU :=
    List.filter_congr (fun c _ => sanitizeKeep_eq_specKeepCharU c)
  constructor
  · rw [sanitizeString, hfil]
  · rw [sanitizeFullName, sanitizeString, hfil]

/-- Counterexample for C6 as stated: on the one-character string `"_"`
the source sanitizers keep the underscore while the character class
written in the spec (letter, digit, whitespace, apostrophe, hyphen)
removes it, for both the `access_code` and the `full_name`
normalization. -/
theorem sanitize_spec_class_counterexample :
    sanitizeString ("_".toList) ≠ (jsTrim ("_".toList)).filter specKeepChar ∧
    sanitizeFullName ("_".toList) ≠
      ((jsTrim ("_".toList)).filter specKeepChar).take 100 := by decide

/-- C7 (amended): for every submission that passes the
missing-required-fields check, each of the four sanitized field values
is a present, non-empty string, and the `email` and `badge_class_id`
values moreover contain a non-whitespace character.  (Amendment forced
by `fields_present_whitespace_counterexample`: the sanitized
`access_code` and `full_name` can be whitespace-only, because the regex
strip runs after the trim and may leave inner whitespace at the ends.) -/
theorem fields_present_nonempty (f : Form)
    (h : fieldsPresent (sanitizeForm f) = true) :
    (∃ v, (sanitizeForm f).email = some v ∧ v ≠ [] ∧
      v.any (fun c => !isJsWhitespace c) = true) ∧
    (∃ v, (sanitizeForm f).badge_class_id = some v ∧ v ≠ [] ∧
      v.any (fun c => !isJsWhitespace c) = true) ∧
    (∃ v, (sanitizeForm f).access_code = some v ∧ v ≠ []) ∧
    (∃ v, (sanitizeForm f).full_name = some v ∧ v ≠ []) := by
  simp only [fieldsPresent, Bool.and_eq_true, and_assoc] at h
  obtain ⟨he, hb, ha, hn⟩ := h
  simp only [sanitizeForm] at he hb ha hn ⊢
  obtain ⟨s1, _, _, happ1, hne1⟩ := truthyO_jsSanApp sanitizeEmail f.email he
  obtain ⟨s2, _, _, happ2, hne2⟩ := truthyO_jsSanApp jsTrim f.badge_class_id hb
  obtain ⟨s3, _, _, happ3, hne3⟩ := truthyO_jsSanApp sanitizeString f.access_code ha
  obtain ⟨s4, _, _, happ4, hne4⟩ := truthyO_jsSanApp sanitizeFullName f.full_name hn
  exact ⟨⟨sanitizeEmail s1, happ1, hne1, sanitizeEmail_any_not_ws s1 hne1⟩,
    ⟨jsTrim s2, happ2, hne2, jsTrim_any_not_ws s2 hne2⟩,
    ⟨sanitizeString s3, happ3, hne3⟩,
    ⟨sanitizeFullName s4, happ4, hne4⟩⟩

/-- Witness for C7: the sanitized fields of a concrete valid submission
are present, non-empty, and (for email and badge class id) contain a
non-whitespace character. -/
theorem fields_present_nonempty_witness :
    fieldsPresent (sanitizeForm reqGood.form) = true ∧
    ((∃ v, (sanitizeForm reqGood.form).email = some v ∧ v ≠ [] ∧
       v.any (fun c => !isJsWhitespace c) = true) ∧
     (∃ v, (sanitizeForm reqGood.form).badge_class_id = some v ∧ v ≠ [] ∧
       v.any (fun c => !isJsWhitespace c) = true) ∧
     (∃ v, (sanitizeForm reqGood.form).access_code = some v ∧ v ≠ []) ∧
     (∃ v, (sanitizeForm reqGood.form).full_name = some v ∧ v ≠ [])) :=
  ⟨by decide, fields_present_nonempty reqGood.form (by decide)⟩

/-- Counterexample for C7 as stated: `form7` passes the missing-fields
check although both its sanitized `access_code` and its sanitized
`full_name` are the whitespace-only string `" "`, so not every
normalized field contains a non-whitespace character. -/
theorem fields_present_whitespace_counterexample :
    fieldsPresent (sanitizeForm form7) = true ∧
    (sanitizeForm form7).access_code = some ([' '] : Str) ∧
    ((sanitizeForm form7).access_code.getD []).any
      (fun c => !isJsWhitespace c) = false ∧
    (sanitizeForm form7).full_name = some ([' '] : Str) ∧
    ((sanitizeForm form7).full_name.getD []).any
      (fun c => !isJsWhitespace c) = false := by decide


/-! Characterization of the email matcher, for C9. -/

lemma noAt_iff (s : Str) : noAt s = true ↔ ∀ x ∈ s, x ≠ '@' := by
  simp [noAt, List.all_eq_true]

lemma midOk_iff (s : Str) : midOk s = true ↔
    ∃ b c, s = b ++ '.' :: c ∧ c ≠ [] ∧
      (∀ x ∈ b, x ≠ '@') ∧ (∀ x ∈ c, x ≠ '@') := by
  induction s with
  | nil =>
    constructor
    · intro h; simp [midOk] at h
    · rintro ⟨b, c, heq, h1, h2, h3⟩
      cases b <;> simp at heq
  | cons c0 rest ih =>
    constructor
    · intro h
      simp only [midOk, Bool.or_eq_true, Bool.and_eq_true] at h
      rcases h with ⟨⟨h1, h2⟩, h3⟩ | ⟨h1, h2⟩
      · have hc0 : c0 = '.' := by simpa using h1
        refine ⟨[], rest, by simp [hc0], by simpa using h2, by simp, ?_⟩
        exact (noAt_iff rest).mp h3
      · obtain ⟨b, c, heq, hc, hbA, hcA⟩ := ih.mp h2
        refine ⟨c0 :: b, c, by simp [heq], hc, ?_, hcA⟩
        intro x hx
        rcases List.mem_cons.mp hx with rfl | hx
        · simpa using h1
        · exact hbA x hx
    · rintro ⟨b, c, heq, hc, hbA, hcA⟩
      cases b with
      | nil =>
        simp only [List.nil_append, List.cons.injEq] at heq
        obtain ⟨h1, h2⟩ := heq
        simp only [midOk, Bool.or_eq_true, Bool.and_eq_true]
        left
        refine ⟨⟨by simp [h1], ?_⟩, ?_⟩
        · subst h2; simpa using hc
        · subst h2; exact (noAt_iff rest).mpr hcA
      | cons b0 bs =>
        simp only [List.cons_append, List.cons.injEq] at heq
        obtain ⟨h1, h2⟩ := heq
        simp only [midOk, Bool.or_eq_true, Bool.and_eq_true]
        right
        constructor
        · subst h1; simpa using hbA c0 (by simp)
        · exact ih.mpr ⟨bs, c, h2, hc,
            fun x hx => hbA x (List.mem_cons_of_mem _ hx), hcA⟩

lemma domainOk_iff (s : Str) : domainOk s = true ↔
    ∃ b c, s = b ++ '.' :: c ∧ b ≠ [] ∧ c ≠ [] ∧
      (∀ x ∈ b, x ≠ '@') ∧ (∀ x ∈ c, x ≠ '@') := by
  cases s with
  | nil =>
    constructor
    · intro h; simp [domainOk] at h
    · rintro ⟨b, c, heq, h1, h2, h3, h4⟩
      cases b <;> simp at heq
  | cons c0 rest =>
    constructor
    · intro h
      simp only [domainOk, Bool.and_eq_true] at h
      obtain ⟨h1, h2⟩ := h
      obtain ⟨b, c, heq, hc, hbA, hcA⟩ := (midOk_iff rest).mp h2
      refine ⟨c0 :: b, c, by simp [heq], by simp, hc, ?_, hcA⟩
      intro x hx
      rcases List.mem_cons.mp hx with rfl | hx
      · simpa using h1
      · exact hbA x hx
    · rintro ⟨b, c, heq, hb, hc, hbA, hcA⟩
      cases b with
      | nil => exact absurd rfl hb
      | cons b0 bs =>
        simp only [List.cons_append, List.cons.injEq] at heq
        obtain ⟨h1, h2⟩ := heq
        simp only [domainOk, Bool.and_eq_true]
        constructor
        · subst h1; simpa using hbA c0 (by simp)
        · exact (midOk_iff rest).mpr ⟨bs, c, h2, hc,
            fun x hx => hbA x (List.mem_cons_of_mem _ hx), hcA⟩

lemma emailTail_iff (s : Str) : emailTail s = true ↔
    ∃ a d, s = a ++ '@' :: d ∧ (∀ x ∈ a, x ≠ '@') ∧
      domainOk d = true := by
  induction s with
  | nil =>
    constructor
    · intro h; simp [emailTail] at h
    · rintro ⟨a, d, heq, h1, h2⟩
      cases a <;> simp at heq
  | cons c0 rest ih =>
    constructor
    · intro h
      simp only [emailTail, Bool.or_eq_true, Bool.and_eq_true] at h
      rcases h with ⟨h1, h2⟩ | ⟨h1, h2⟩
      · have hc0 : c0 = '@' := by simpa using h1
        exact ⟨[], rest, by simp [hc0], by simp, h2⟩
      · obtain ⟨a, d, heq, haA, hd⟩ := ih.mp h2
        refine ⟨c0 :: a, d, by simp [heq], ?_, hd⟩
        intro x hx
        rcases List.mem_cons.mp hx with rfl | hx
        · simpa using h1
        · exact haA x hx
    · rintro ⟨a, d, heq, haA, hd⟩
      cases a with
      | nil =>
        simp only [List.nil_append, List.cons.injEq] at heq
        obtain ⟨h1, h2⟩ := heq
        simp only [emailTail, Bool.or_eq_true, Bool.and_eq_true]
        left
        exact ⟨by simp [h1], by rw [h2]; exact hd⟩
      | cons a0 as2 =>
        simp only [List.cons_append, List.cons.injEq] at heq
        obtain ⟨h1, h2⟩ := heq
        simp only [emailTail, Bool.or_eq_true, Bool.and_eq_true]
        right
        constructor
        · subst h1; simpa using haA c0 (by simp)
        · exact ih.mpr ⟨as2, d, h2,
            fun x hx => haA x (List.mem_cons_of_mem _ hx), hd⟩

/-- The recursive matcher accepts exactly the strings of the shape the
spec describes. -/
lemma isValidEmail_iff_shape (s : Str) :
    isValidEmail s = true ↔ emailShapeSpec s := by
  cases s with
  | nil =>
    constructor
    · intro h; simp [isValidEmail] at h
    · rintro ⟨a, b, c, heq, ha, hb, hc, h1, h2, h3⟩
      cases a <;> simp at heq
  | cons c0 rest =>
    constructor
    · intro h
      simp only [isValidEmail, Bool.and_eq_true] at h
      obtain ⟨h1, h2⟩ := h
      obtain ⟨a, d, heq, haA, hd⟩ := (emailTail_iff rest).mp h2
      obtain ⟨b, c, heqd, hb, hc, hbA, hcA⟩ := (domainOk_iff d).mp hd
      refine ⟨c0 :: a, b, c, by simp [heq, heqd], by simp, hb, hc, ?_,
        hbA, hcA⟩
      intro x hx
      rcases List.mem_cons.mp hx with rfl | hx
      · simpa using h1
      · exact haA x hx
    · rintro ⟨a, b, c, heq, ha, hb, hc, haA, hbA, hcA⟩
      cases a with
      | nil => exact absurd rfl ha
      | cons a0 as2 =>
        simp only [List.cons_append, List.cons.injEq] at heq
        obtain ⟨h1, h2⟩ := heq
        simp only [isValidEmail, Bool.and_eq_true]
        constructor
        · subst h1; simpa using haA c0 (by simp)
        · exact (emailTail_iff rest).mpr ⟨as2, b ++ '.' :: c, h2,
            fun x hx => haA x (List.mem_cons_of_mem _ hx),
            (domainOk_iff _).mpr ⟨b, c, rfl, hb, hc, hbA, hcA⟩⟩


/-- C9: the source email check accepts a string exactly when it consists
of one or more non-`'@'` characters, then `'@'`, then one or more
non-`'@'` characters, then `'.'`, then one or more non-`'@'` characters;
and a request passing the gate, method, body and missing-fields checks
whose sanitized email fails the check gets 400 `Invalid email format.`
with no upstream call. -/
theorem email_regex_characterization :
    (∀ s : Str, isValidEmail s = true ↔ emailShapeSpec s) ∧
    (∀ (req : Req) (env : Env) (up : Upstream),
      checkOrigin req = true → req.method = postMethod → req.body ≠ [] →
      fieldsPresent (sanitizeForm req.form) = true →
      isValidEmail ((sanitizeForm req.form).email.getD []) = false →
      handler req env up =
        ⟨400, "Invalid email format.".toList, false, false, false, false⟩) := by
  constructor
  · exact isValidEmail_iff_shape
  · intro req env up h0 hm hb hf he
    rw [handler_to_handleForm req env up h0 hm hb]
    simp only [handleForm]
    rw [if_pos hf, if_neg (by simp [he])]
    rfl

/-- Witness for C9: the shape characterization at a concrete accepted
string, and the handler response for a concrete submission with an
invalid email. -/
theorem email_regex_characterization_witness :
    (isValidEmail ("a@b.c".toList) = true ↔
      emailShapeSpec ("a@b.c".toList)) ∧
    isValidEmail ((sanitizeForm reqBadEmailUnknownBadge.form).email.getD [])
      = false ∧
    handler reqBadEmailUnknownBadge env0 upGood =
      ⟨400, "Invalid email format.".toList, false, false, false, false⟩ :=
  ⟨email_regex_characterization.1 ("a@b.c".toList), by decide,
   email_regex_characterization.2 reqBadEmailUnknownBadge env0 upGood
     (by decide) (by decide) (by decide) (by decide) (by decide)⟩

end PublishBadge
